import Mathlib

/-!
Verification of `Lib/fontTools/pens/statisticsPen.py` (StatisticsPen).

The pen state is embedded as a structure of real numbers: the six raw
moment totals inherited from MomentsPen, the current/start point, and the
nine derived statistics.  Python floats are idealised as real numbers; the
one place where the float NaN sentinel is observable (the intermediate
correlation and slant values before the `abs(v) > 1e-3` snap) is modelled
by an explicit sentinel type `RVal`, where `nan` fails every comparison,
exactly as IEEE NaN does in Python.
-/

/-- A float value that may be the NaN sentinel. -/
inductive RVal where
  | num (r : ℝ)
  | nan

/-- The six raw moment totals of MomentsPen. -/
structure Totals where
  area : ℝ
  momentX : ℝ
  momentY : ℝ
  momentXX : ℝ
  momentYY : ℝ
  momentXY : ℝ

/-- The nine derived statistics of StatisticsPen. -/
structure Stats where
  meanX : ℝ
  meanY : ℝ
  varianceX : ℝ
  varianceY : ℝ
  stddevX : ℝ
  stddevY : ℝ
  covariance : ℝ
  correlation : RVal
  slant : RVal

/-- Full pen state: totals and pen position (MomentsPen) plus the derived
statistics (StatisticsPen). -/
structure Pen where
  area : ℝ
  momentX : ℝ
  momentY : ℝ
  momentXX : ℝ
  momentYY : ℝ
  momentXY : ℝ
  curX : ℝ
  curY : ℝ
  startX : ℝ
  startY : ℝ
  meanX : ℝ
  meanY : ℝ
  varianceX : ℝ
  varianceY : ℝ
  stddevX : ℝ
  stddevY : ℝ
  covariance : ℝ
  correlation : RVal
  slant : RVal

/-- The six raw totals of a pen state. -/
def Pen.totals (s : Pen) : Totals :=
  { area := s.area, momentX := s.momentX, momentY := s.momentY,
    momentXX := s.momentXX, momentYY := s.momentYY, momentXY := s.momentXY }

/-- The nine derived statistics of a pen state. -/
def Pen.stats (s : Pen) : Stats :=
  { meanX := s.meanX, meanY := s.meanY,
    varianceX := s.varianceX, varianceY := s.varianceY,
    stddevX := s.stddevX, stddevY := s.stddevY,
    covariance := s.covariance,
    correlation := s.correlation, slant := s.slant }

/-- Python `math.copysign x y`: the magnitude of `x` with the sign of `y`
(real idealisation: there is no negative zero). -/
noncomputable def copysign (x y : ℝ) : ℝ :=
  if y < 0 then -|x| else |x|

/-- The snapping step `v if abs(v) > 1e-3 else 0` applied to the stored
correlation and slant.  In Python `abs(nan) > 1e-3` is `False`, so the
sentinel is also snapped to `0`. -/
noncomputable def snap (v : RVal) : RVal :=
  match v with
  | RVal.num r => if |r| > 1 / 1000 then RVal.num r else RVal.num 0
  | RVal.nan => RVal.num 0

/-- `meanX = momentX / area` (line 48 of the source). -/
noncomputable def meanXOf (t : Totals) : ℝ := t.momentX / t.area

/-- `meanY = momentY / area` (line 49 of the source). -/
noncomputable def meanYOf (t : Totals) : ℝ := t.momentY / t.area

/-- `varianceX = momentXX / area - meanX ** 2` (line 52 of the source). -/
noncomputable def varianceXOf (t : Totals) : ℝ :=
  t.momentXX / t.area - meanXOf t ^ 2

/-- `varianceY = momentYY / area - meanY ** 2` (line 53 of the source). -/
noncomputable def varianceYOf (t : Totals) : ℝ :=
  t.momentYY / t.area - meanYOf t ^ 2

/-- `stddevX = copysign(abs(varianceX) ** 0.5, varianceX)` (line 55). -/
noncomputable def stddevXOf (t : Totals) : ℝ :=
  copysign (Real.sqrt |varianceXOf t|) (varianceXOf t)

/-- `stddevY = copysign(abs(varianceY) ** 0.5, varianceY)` (line 56). -/
noncomputable def stddevYOf (t : Totals) : ℝ :=
  copysign (Real.sqrt |varianceYOf t|) (varianceYOf t)

/-- `covariance = momentXY / area - meanX * meanY` (line 59). -/
noncomputable def covarianceOf (t : Totals) : ℝ :=
  t.momentXY / t.area - meanXOf t * meanYOf t

/-- The intermediate (pre-snap) correlation, lines 63-66 of the source:
`NaN` when `stddevX * stddevY == 0`, otherwise
`covariance / (stddevX * stddevY)`. -/
noncomputable def correlationPre (t : Totals) : RVal :=
  if stddevXOf t * stddevYOf t = 0 then RVal.nan
  else RVal.num (covarianceOf t / (stddevXOf t * stddevYOf t))

/-- The intermediate (pre-snap) slant, line 69 of the source:
`covariance / varianceY if varianceY != 0 else NaN`. -/
noncomputable def slantPre (t : Totals) : RVal :=
  if varianceYOf t ≠ 0 then RVal.num (covarianceOf t / varianceYOf t)
  else RVal.nan

/-- `StatisticsPen.__zero`: resets the nine derived statistics to zero. -/
def zeroStats (s : Pen) : Pen :=
  { s with meanX := 0, meanY := 0, varianceX := 0, varianceY := 0,
           stddevX := 0, stddevY := 0, covariance := 0,
           correlation := RVal.num 0, slant := RVal.num 0 }

/-- `StatisticsPen.__update`: recomputes the nine derived statistics from
the current six totals.  `if not area: self.__zero(); return` guards the
divisions; otherwise each statistic is assigned per lines 48-70 of the
source, with the `abs(v) > 1e-3` snap on correlation and slant. -/
noncomputable def update (s : Pen) : Pen :=
  if s.area = 0 then zeroStats s
  else
    { s with
      meanX := meanXOf s.totals,
      meanY := meanYOf s.totals,
      varianceX := varianceXOf s.totals,
      varianceY := varianceYOf s.totals,
      stddevX := stddevXOf s.totals,
      stddevY := stddevYOf s.totals,
      covariance := covarianceOf s.totals,
      correlation := snap (correlationPre s.totals),
      slant := snap (slantPre s.totals) }

/-- The all-zero statistics block. -/
def Stats.allZero : Stats :=
  { meanX := 0, meanY := 0, varianceX := 0, varianceY := 0,
    stddevX := 0, stddevY := 0, covariance := 0,
    correlation := RVal.num 0, slant := RVal.num 0 }

/-- The statistics-derivation algorithm as a pure function of the six
totals alone (same algorithm as `update`). -/
noncomputable def deriveStats (t : Totals) : Stats :=
  if t.area = 0 then Stats.allZero
  else
    { meanX := meanXOf t, meanY := meanYOf t,
      varianceX := varianceXOf t, varianceY := varianceYOf t,
      stddevX := stddevXOf t, stddevY := stddevYOf t,
      covariance := covarianceOf t,
      correlation := snap (correlationPre t),
      slant := snap (slantPre t) }

/-- Modelled from the spec: the MomentsPen closed-form contribution of the
straight segment from the current point to `(x1, y1)` (Green's theorem
polygon-edge formulas; the MomentsPen source is not in the fragment, only
its contract: each segment adds an exact polynomial increment to the six
totals and moves the current point). -/
noncomputable def lineTo (s : Pen) (x1 y1 : ℝ) : Pen :=
  let x0 := s.curX
  let y0 := s.curY
  let cross := x0 * y1 - x1 * y0
  { s with
    area := s.area + cross / 2,
    momentX := s.momentX + (x0 + x1) * cross / 6,
    momentY := s.momentY + (y0 + y1) * cross / 6,
    momentXX := s.momentXX + (x0 ^ 2 + x0 * x1 + x1 ^ 2) * cross / 12,
    momentYY := s.momentYY + (y0 ^ 2 + y0 * y1 + y1 ^ 2) * cross / 12,
    momentXY := s.momentXY +
      (2 * x0 * y0 + x0 * y1 + x1 * y0 + 2 * x1 * y1) * cross / 24,
    curX := x1, curY := y1 }

/-- Modelled from the spec: `MomentsPen._closePath` — if the current point
differs from the subpath start, an implicit `lineTo(start)` is applied
first, then the subpath is sealed (the MomentsPen source is not in the
fragment). -/
noncomputable def momentsClosePath (s : Pen) : Pen :=
  if s.curX = s.startX ∧ s.curY = s.startY then s
  else lineTo s s.startX s.startY

/-- `StatisticsPen._closePath`: `MomentsPen._closePath(self)` first, then
`self.__update()`. -/
noncomputable def closePath (s : Pen) : Pen :=
  update (momentsClosePath s)

/-- A pen state holding the given totals, with pen position at the origin
and all derived statistics still at their initial zeros. -/
def mkPen (t : Totals) : Pen :=
  { area := t.area, momentX := t.momentX, momentY := t.momentY,
    momentXX := t.momentXX, momentYY := t.momentYY, momentXY := t.momentXY,
    curX := 0, curY := 0, startX := 0, startY := 0,
    meanX := 0, meanY := 0, varianceX := 0, varianceY := 0,
    stddevX := 0, stddevY := 0, covariance := 0,
    correlation := RVal.num 0, slant := RVal.num 0 }

lemma mkPen_totals (t : Totals) : (mkPen t).totals = t := rfl

lemma snap_ne_nan (v : RVal) : snap v ≠ RVal.nan := by
  cases v with
  | num r =>
    unfold snap
    split
    · split <;> simp
    · simp
  | nan => simp [snap]

lemma update_totals_eq (s : Pen) : (update s).totals = s.totals := by
  unfold update zeroStats Pen.totals
  split <;> rfl

lemma update_stats_eq (s : Pen) : (update s).stats = deriveStats s.totals := by
  by_cases h : s.area = 0
  · simp [update, deriveStats, Pen.totals, Pen.stats, h, zeroStats, Stats.allZero]
  · simp [update, deriveStats, Pen.totals, Pen.stats, h]

/-- C9: `__update` reads the six raw totals but never writes any of them. -/
theorem update_never_writes_totals (s : Pen) :
    (update s).area = s.area ∧ (update s).momentX = s.momentX ∧
    (update s).momentY = s.momentY ∧ (update s).momentXX = s.momentXX ∧
    (update s).momentYY = s.momentYY ∧ (update s).momentXY = s.momentXY := by
  unfold update zeroStats
  split <;> exact ⟨rfl, rfl, rfl, rfl, rfl, rfl⟩

/-- C10: after `__update` the stored correlation and slant are never the
NaN sentinel: a NaN intermediate fails the `abs(v) > 1e-3` comparison and
is stored as `0`. -/
theorem stored_correlation_slant_never_nan (s : Pen) :
    (update s).correlation ≠ RVal.nan ∧ (update s).slant ≠ RVal.nan := by
  by_cases h : s.area = 0
  · simp [update, h, zeroStats]
  · simp only [update, if_neg h]
    exact ⟨snap_ne_nan _, snap_ne_nan _⟩

/-- C2: when the accumulated area is exactly zero, `__update` resets all
nine derived statistics to exactly `0` (never NaN, never stale). -/
theorem zero_area_resets_all_stats (s : Pen) (h : s.area = 0) :
    (update s).stats = Stats.allZero := by
  simp [update, h, zeroStats, Pen.stats, Stats.allZero]

/-- A pen state with zero area but stale nonzero derived statistics. -/
def penStale : Pen :=
  { area := 0, momentX := 3, momentY := 4, momentXX := 5, momentYY := 6,
    momentXY := 7, curX := 0, curY := 0, startX := 0, startY := 0,
    meanX := 42, meanY := 42, varianceX := 42, varianceY := 42,
    stddevX := 42, stddevY := 42, covariance := 42,
    correlation := RVal.num 42, slant := RVal.num 42 }

/-- C2 witness: at a concrete zero-area state with stale statistics,
`__update` resets everything to zero. -/
theorem zero_area_resets_all_stats_witness :
    penStale.area = 0 ∧ (update penStale).stats = Stats.allZero :=
  ⟨rfl, zero_area_resets_all_stats penStale rfl⟩

/-- C8: processing a ClosePath first runs the accumulator's close handling
(including any implicit closing line) and then recomputes the derived
statistics from the resulting cumulative totals: the statistics after any
close are a function of those totals alone. -/
theorem closePath_recomputes_from_totals (s : Pen) :
    (closePath s).totals = (momentsClosePath s).totals ∧
    (closePath s).stats = deriveStats (momentsClosePath s).totals := by
  unfold closePath
  exact ⟨update_totals_eq _, update_stats_eq _⟩

lemma stddevYOf_eq_zero (t : Totals) (h : varianceYOf t = 0) :
    stddevYOf t = 0 := by
  simp [stddevYOf, h, copysign, Real.sqrt_zero]

/-- C1 (amended): with nonzero area, nonzero varianceX and exactly zero
varianceY, the intermediate correlation and slant are the NaN sentinel,
but the snapping step `abs(v) > 1e-3` evaluates false on NaN, so the
derived statistics read after the close are `0`, not NaN: the sentinel is
not surfaced to the caller. -/
theorem nan_snapped_to_zero_on_zero_varianceY (s : Pen) (harea : s.area ≠ 0)
    (_hvx : varianceXOf s.totals ≠ 0) (hvy : varianceYOf s.totals = 0) :
    correlationPre s.totals = RVal.nan ∧
    (update s).correlation = RVal.num 0 ∧
    slantPre s.totals = RVal.nan ∧
    (update s).slant = RVal.num 0 := by
  have hsy : stddevYOf s.totals = 0 := stddevYOf_eq_zero _ hvy
  have hc : correlationPre s.totals = RVal.nan := by
    simp [correlationPre, hsy]
  have hs : slantPre s.totals = RVal.nan := by
    simp [slantPre, hvy]
  refine ⟨hc, ?_, hs, ?_⟩ <;>
    simp [update, if_neg harea, hc, hs, snap]

/-- Totals of a shape with unit area, spread only along the x axis. -/
def tVar0Y : Totals := ⟨1, 0, 0, 1, 0, 0⟩

/-- C1 witness: the amended behaviour at the concrete totals `tVar0Y`. -/
theorem nan_snapped_to_zero_on_zero_varianceY_witness :
    (mkPen tVar0Y).area ≠ 0 ∧ varianceXOf (mkPen tVar0Y).totals ≠ 0 ∧
    varianceYOf (mkPen tVar0Y).totals = 0 ∧
    (correlationPre (mkPen tVar0Y).totals = RVal.nan ∧
     (update (mkPen tVar0Y)).correlation = RVal.num 0 ∧
     slantPre (mkPen tVar0Y).totals = RVal.nan ∧
     (update (mkPen tVar0Y)).slant = RVal.num 0) := by
  have h1 : (mkPen tVar0Y).area ≠ 0 := by norm_num [mkPen, tVar0Y]
  have h2 : varianceXOf (mkPen tVar0Y).totals ≠ 0 := by
    norm_num [varianceXOf, meanXOf, mkPen_totals, tVar0Y]
  have h3 : varianceYOf (mkPen tVar0Y).totals = 0 := by
    norm_num [varianceYOf, meanYOf, mkPen_totals, tVar0Y]
  exact ⟨h1, h2, h3,
    nan_snapped_to_zero_on_zero_varianceY (mkPen tVar0Y) h1 h2 h3⟩

/-- C1 counterexample: at the totals `tVar0Y` (area 1, varianceX 1,
varianceY 0) the stored slant and correlation after the close are not the
NaN sentinel, contradicting the claim that `slant == NaN` and
`correlation == NaN` are surfaced to the caller. -/
theorem corr_slant_nan_counterexample :
    (mkPen tVar0Y).area ≠ 0 ∧ varianceXOf (mkPen tVar0Y).totals ≠ 0 ∧
    varianceYOf (mkPen tVar0Y).totals = 0 ∧
    (update (mkPen tVar0Y)).slant ≠ RVal.nan ∧
    (update (mkPen tVar0Y)).correlation ≠ RVal.nan := by
  have h1 : (mkPen tVar0Y).area ≠ 0 := by norm_num [mkPen, tVar0Y]
  have h3 : varianceYOf (mkPen tVar0Y).totals = 0 := by
    norm_num [varianceYOf, meanYOf, mkPen_totals, tVar0Y]
  have hsy : stddevYOf (mkPen tVar0Y).totals = 0 := stddevYOf_eq_zero _ h3
  refine ⟨h1, ?_, h3, ?_, ?_⟩
  · norm_num [varianceXOf, meanXOf, mkPen_totals, tVar0Y]
  · simp [update, if_neg h1, slantPre, h3, snap]
  · simp [update, if_neg h1, correlationPre, hsy, snap]

/-- Totals with unit area, zero means, and unit second moments on both
axes; `m` is the cross moment.  Gives stddevX = stddevY = 1 and
covariance = correlation = slant = `m`. -/
def unitTotals (m : ℝ) : Totals := ⟨1, 0, 0, 1, 1, m⟩

lemma unitTotals_varianceX (m : ℝ) : varianceXOf (unitTotals m) = 1 := by
  norm_num [varianceXOf, meanXOf, unitTotals]

lemma unitTotals_varianceY (m : ℝ) : varianceYOf (unitTotals m) = 1 := by
  norm_num [varianceYOf, meanYOf, unitTotals]

lemma unitTotals_stddevX (m : ℝ) : stddevXOf (unitTotals m) = 1 := by
  rw [stddevXOf, unitTotals_varianceX, copysign]
  norm_num [Real.sqrt_one]

lemma unitTotals_stddevY (m : ℝ) : stddevYOf (unitTotals m) = 1 := by
  rw [stddevYOf, unitTotals_varianceY, copysign]
  norm_num [Real.sqrt_one]

lemma unitTotals_covariance (m : ℝ) : covarianceOf (unitTotals m) = m := by
  norm_num [covarianceOf, meanXOf, meanYOf, unitTotals]

lemma unitTotals_correlationPre (m : ℝ) :
    correlationPre (unitTotals m) = RVal.num m := by
  rw [correlationPre, unitTotals_stddevX, unitTotals_stddevY,
    unitTotals_covariance]
  norm_num

lemma unitTotals_slantPre (m : ℝ) :
    slantPre (unitTotals m) = RVal.num m := by
  rw [slantPre, unitTotals_varianceY, unitTotals_covariance]
  norm_num

lemma unitTotals_area_ne (m : ℝ) : (mkPen (unitTotals m)).area ≠ 0 := by
  norm_num [mkPen, unitTotals]

lemma update_correlation_eq (s : Pen) (h : s.area ≠ 0) :
    (update s).correlation = snap (correlationPre s.totals) := by
  rw [update, if_neg h]

lemma update_slant_eq (s : Pen) (h : s.area ≠ 0) :
    (update s).slant = snap (slantPre s.totals) := by
  rw [update, if_neg h]

lemma snap_num_of_gt (r : ℝ) (h : 1 / 1000 < |r|) :
    snap (RVal.num r) = RVal.num r := by
  show (if |r| > 1 / 1000 then RVal.num r else RVal.num 0) = RVal.num r
  rw [if_pos h]

lemma snap_num_of_le (r : ℝ) (h : |r| ≤ 1 / 1000) :
    snap (RVal.num r) = RVal.num 0 := by
  show (if |r| > 1 / 1000 then RVal.num r else RVal.num 0) = RVal.num 0
  rw [if_neg (not_lt.mpr h)]

lemma abs_inv_thousand : |(1 : ℝ) / 1000| = 1 / 1000 := abs_of_pos (by norm_num)

lemma abs_half : |(1 : ℝ) / 2| = 1 / 2 := abs_of_pos (by norm_num)

/-- C3 (amended): only pre-snap values strictly above the `1e-3` threshold
in absolute value are stored unsnapped; values at or below the threshold
(the boundary value `1e-3` included) are snapped to exactly `0`. -/
theorem snap_threshold_strict (s : Pen) (r : ℝ) (harea : s.area ≠ 0) :
    (correlationPre s.totals = RVal.num r → 1 / 1000 < |r| →
      (update s).correlation = RVal.num r) ∧
    (correlationPre s.totals = RVal.num r → |r| ≤ 1 / 1000 →
      (update s).correlation = RVal.num 0) ∧
    (slantPre s.totals = RVal.num r → 1 / 1000 < |r| →
      (update s).slant = RVal.num r) ∧
    (slantPre s.totals = RVal.num r → |r| ≤ 1 / 1000 →
      (update s).slant = RVal.num 0) := by
  refine ⟨fun h h' => ?_, fun h h' => ?_, fun h h' => ?_, fun h h' => ?_⟩
  · rw [update_correlation_eq s harea, h, snap_num_of_gt r h']
  · rw [update_correlation_eq s harea, h, snap_num_of_le r h']
  · rw [update_slant_eq s harea, h, snap_num_of_gt r h']
  · rw [update_slant_eq s harea, h, snap_num_of_le r h']

/-- C3 witness: at the unit totals with cross moment `1/2`, the pre-snap
correlation and slant are `1/2 > 1e-3` and are stored unsnapped. -/
theorem snap_threshold_strict_witness :
    (mkPen (unitTotals (1 / 2))).area ≠ 0 ∧
    (update (mkPen (unitTotals (1 / 2)))).correlation = RVal.num (1 / 2) ∧
    (update (mkPen (unitTotals (1 / 2)))).slant = RVal.num (1 / 2) := by
  have h := unitTotals_area_ne (1 / 2)
  have hc : correlationPre (mkPen (unitTotals (1 / 2))).totals
      = RVal.num (1 / 2) := by
    rw [mkPen_totals]; exact unitTotals_correlationPre _
  have hs : slantPre (mkPen (unitTotals (1 / 2))).totals
      = RVal.num (1 / 2) := by
    rw [mkPen_totals]; exact unitTotals_slantPre _
  have habs : (1 : ℝ) / 1000 < |(1 : ℝ) / 2| := by rw [abs_half]; norm_num
  exact ⟨h,
    (snap_threshold_strict (mkPen (unitTotals (1 / 2))) (1 / 2) h).1 hc habs,
    (snap_threshold_strict (mkPen (unitTotals (1 / 2))) (1 / 2) h).2.2.1 hs habs⟩

/-- C3 counterexample: at the unit totals with cross moment exactly
`1e-3`, the pre-snap correlation and slant are exactly `1e-3` (absolute
value at the threshold), yet the stored values are `0`, not the pre-snap
values: the boundary value is snapped, contradicting the claim. -/
theorem snap_boundary_counterexample :
    (mkPen (unitTotals (1 / 1000))).area ≠ 0 ∧
    correlationPre (mkPen (unitTotals (1 / 1000))).totals
      = RVal.num (1 / 1000) ∧
    slantPre (mkPen (unitTotals (1 / 1000))).totals = RVal.num (1 / 1000) ∧
    (1 : ℝ) / 1000 ≤ |(1 : ℝ) / 1000| ∧
    (update (mkPen (unitTotals (1 / 1000)))).correlation = RVal.num 0 ∧
    (update (mkPen (unitTotals (1 / 1000)))).slant = RVal.num 0 ∧
    RVal.num (0 : ℝ) ≠ RVal.num ((1 : ℝ) / 1000) := by
  have h := unitTotals_area_ne (1 / 1000)
  have hc : correlationPre (mkPen (unitTotals (1 / 1000))).totals
      = RVal.num (1 / 1000) := by
    rw [mkPen_totals]; exact unitTotals_correlationPre _
  have hs : slantPre (mkPen (unitTotals (1 / 1000))).totals
      = RVal.num (1 / 1000) := by
    rw [mkPen_totals]; exact unitTotals_slantPre _
  have hle : |(1 : ℝ) / 1000| ≤ 1 / 1000 := le_of_eq abs_inv_thousand
  refine ⟨h, hc, hs, le_of_eq abs_inv_thousand.symm, ?_, ?_, ?_⟩
  · rw [update_correlation_eq _ h, hc, snap_num_of_le _ hle]
  · rw [update_slant_eq _ h, hs, snap_num_of_le _ hle]
  · intro hq
    have : (0 : ℝ) = 1 / 1000 := by injection hq
    norm_num at this

/-- C4: a pre-snap correlation or slant whose absolute value is at or
below `1e-3` is stored as exactly `0`. -/
theorem snap_le_threshold_to_zero (s : Pen) (r : ℝ) (harea : s.area ≠ 0) :
    (correlationPre s.totals = RVal.num r → |r| ≤ 1 / 1000 →
      (update s).correlation = RVal.num 0) ∧
    (slantPre s.totals = RVal.num r → |r| ≤ 1 / 1000 →
      (update s).slant = RVal.num 0) := by
  refine ⟨fun h h' => ?_, fun h h' => ?_⟩
  · rw [update_correlation_eq s harea, h, snap_num_of_le r h']
  · rw [update_slant_eq s harea, h, snap_num_of_le r h']

/-- C4 witness: at the unit totals with cross moment `1e-3` the pre-snap
correlation and slant have absolute value `1e-3 ≤ 1e-3` and are stored as
exactly `0`. -/
theorem snap_le_threshold_to_zero_witness :
    (mkPen (unitTotals (1 / 1000))).area ≠ 0 ∧
    |(1 : ℝ) / 1000| ≤ 1 / 1000 ∧
    (update (mkPen (unitTotals (1 / 1000)))).correlation = RVal.num 0 ∧
    (update (mkPen (unitTotals (1 / 1000)))).slant = RVal.num 0 := by
  have h := unitTotals_area_ne (1 / 1000)
  have hc : correlationPre (mkPen (unitTotals (1 / 1000))).totals
      = RVal.num (1 / 1000) := by
    rw [mkPen_totals]; exact unitTotals_correlationPre _
  have hs : slantPre (mkPen (unitTotals (1 / 1000))).totals
      = RVal.num (1 / 1000) := by
    rw [mkPen_totals]; exact unitTotals_slantPre _
  have habs : |(1 : ℝ) / 1000| ≤ 1 / 1000 := le_of_eq abs_inv_thousand
  exact ⟨h, habs,
    (snap_le_threshold_to_zero (mkPen (unitTotals (1 / 1000))) (1 / 1000) h).1
      hc habs,
    (snap_le_threshold_to_zero (mkPen (unitTotals (1 / 1000))) (1 / 1000) h).2
      hs habs⟩

/-- C5: with nonzero area, `__update` computes the means from the first
moments and the variances by `Var = E[X²] − E[X]²`, storing a negative
variance as-is. -/
theorem means_and_variances_formulas (s : Pen) (h : s.area ≠ 0) :
    (update s).meanX = s.momentX / s.area ∧
    (update s).meanY = s.momentY / s.area ∧
    (update s).varianceX = s.momentXX / s.area - (s.momentX / s.area) ^ 2 ∧
    (update s).varianceY = s.momentYY / s.area - (s.momentY / s.area) ^ 2 := by
  refine ⟨?_, ?_, ?_, ?_⟩ <;> rw [update, if_neg h] <;>
    simp [meanXOf, meanYOf, varianceXOf, varianceYOf, Pen.totals]

/-- Totals of unit area whose variance along x is negative
(`varianceX = 0/1 - 1² = -1`) and zero along y. -/
def tNegVar : Totals := ⟨1, 1, 0, 0, 0, 0⟩

/-- C5 witness: at the totals `tNegVar` the formulas hold and produce the
negative variance `-1`, stored unclamped. -/
theorem means_and_variances_formulas_witness :
    (mkPen tNegVar).area ≠ 0 ∧
    ((update (mkPen tNegVar)).meanX
        = (mkPen tNegVar).momentX / (mkPen tNegVar).area ∧
      (update (mkPen tNegVar)).meanY
        = (mkPen tNegVar).momentY / (mkPen tNegVar).area ∧
      (update (mkPen tNegVar)).varianceX
        = (mkPen tNegVar).momentXX / (mkPen tNegVar).area
          - ((mkPen tNegVar).momentX / (mkPen tNegVar).area) ^ 2 ∧
      (update (mkPen tNegVar)).varianceY
        = (mkPen tNegVar).momentYY / (mkPen tNegVar).area
          - ((mkPen tNegVar).momentY / (mkPen tNegVar).area) ^ 2) ∧
    (update (mkPen tNegVar)).varianceX = -1 := by
  have h : (mkPen tNegVar).area ≠ 0 := by norm_num [mkPen, tNegVar]
  have hm := means_and_variances_formulas (mkPen tNegVar) h
  refine ⟨h, hm, ?_⟩
  rw [hm.2.2.1]
  norm_num [mkPen, tNegVar]

lemma signedSqrt_cases (v : ℝ) :
    copysign (Real.sqrt |v|) v
      = if v < 0 then -Real.sqrt |v| else Real.sqrt |v| := by
  unfold copysign
  rw [abs_of_nonneg (Real.sqrt_nonneg _)]

lemma signedSqrt_sq (v : ℝ) : copysign (Real.sqrt |v|) v ^ 2 = |v| := by
  rw [signedSqrt_cases]
  split <;> simp [neg_sq, Real.sq_sqrt (abs_nonneg v)]

lemma signedSqrt_nonneg (v : ℝ) (h : 0 ≤ v) :
    0 ≤ copysign (Real.sqrt |v|) v := by
  rw [signedSqrt_cases, if_neg (not_lt.mpr h)]
  exact Real.sqrt_nonneg _

lemma signedSqrt_neg_of_neg (v : ℝ) (h : v < 0) :
    copysign (Real.sqrt |v|) v < 0 := by
  rw [signedSqrt_cases, if_pos h]
  have hp : 0 < Real.sqrt |v| := Real.sqrt_pos.mpr (abs_pos.mpr (ne_of_lt h))
  linarith

/-- C6: with nonzero area, the stored standard deviations are the signed
square roots `sign(v) · sqrt(|v|)` of the variances: their squares equal
the absolute variances and they carry the variance's sign; no error and no
NaN arises for a negative variance. -/
theorem stddev_signed_sqrt (s : Pen) (h : s.area ≠ 0) :
    ((update s).stddevX =
      if varianceXOf s.totals < 0 then -Real.sqrt |varianceXOf s.totals|
      else Real.sqrt |varianceXOf s.totals|) ∧
    (update s).stddevX ^ 2 = |varianceXOf s.totals| ∧
    (0 ≤ varianceXOf s.totals → 0 ≤ (update s).stddevX) ∧
    (varianceXOf s.totals < 0 → (update s).stddevX < 0) ∧
    ((update s).stddevY =
      if varianceYOf s.totals < 0 then -Real.sqrt |varianceYOf s.totals|
      else Real.sqrt |varianceYOf s.totals|) ∧
    (update s).stddevY ^ 2 = |varianceYOf s.totals| ∧
    (0 ≤ varianceYOf s.totals → 0 ≤ (update s).stddevY) ∧
    (varianceYOf s.totals < 0 → (update s).stddevY < 0) := by
  have hx : (update s).stddevX = stddevXOf s.totals := by rw [update, if_neg h]
  have hy : (update s).stddevY = stddevYOf s.totals := by rw [update, if_neg h]
  rw [hx, hy]
  exact ⟨signedSqrt_cases _, signedSqrt_sq _, signedSqrt_nonneg _,
    signedSqrt_neg_of_neg _, signedSqrt_cases _, signedSqrt_sq _,
    signedSqrt_nonneg _, signedSqrt_neg_of_neg _⟩

/-- C6 witness: at the totals `tNegVar` (varianceX = -1) the stored
stddevX is `-1`: negative, with square `|-1| = 1`. -/
theorem stddev_signed_sqrt_witness :
    (mkPen tNegVar).area ≠ 0 ∧
    varianceXOf (mkPen tNegVar).totals = -1 ∧
    (update (mkPen tNegVar)).stddevX = -1 ∧
    (update (mkPen tNegVar)).stddevX < 0 ∧
    (update (mkPen tNegVar)).stddevX ^ 2 = 1 := by
  have h : (mkPen tNegVar).area ≠ 0 := by norm_num [mkPen, tNegVar]
  have h8 := stddev_signed_sqrt (mkPen tNegVar) h
  have hv : varianceXOf (mkPen tNegVar).totals = -1 := by
    rw [mkPen_totals]
    norm_num [varianceXOf, meanXOf, tNegVar]
  have hvneg : varianceXOf (mkPen tNegVar).totals < 0 := by
    rw [hv]; norm_num
  refine ⟨h, hv, ?_, h8.2.2.2.1 hvneg, ?_⟩
  · rw [h8.1, if_pos hvneg, hv]
    norm_num [Real.sqrt_one]
  · rw [h8.2.1, hv]
    norm_num

/-- C7: with nonzero area, `__update` computes the covariance as
`momentXY / area − meanX · meanY`, and when the stddev product is nonzero
and the quotient clears the `1e-3` snap threshold, the stored correlation
is `covariance / (stddevX · stddevY)`. -/
theorem covariance_correlation_formulas (s : Pen) (h : s.area ≠ 0) :
    (update s).covariance =
      s.momentXY / s.area - s.momentX / s.area * (s.momentY / s.area) ∧
    (stddevXOf s.totals * stddevYOf s.totals ≠ 0 →
      1 / 1000 <
        |covarianceOf s.totals / (stddevXOf s.totals * stddevYOf s.totals)| →
      (update s).correlation =
        RVal.num
          (covarianceOf s.totals /
            (stddevXOf s.totals * stddevYOf s.totals))) := by
  refine ⟨?_, fun hsd habs => ?_⟩
  · rw [update, if_neg h]
    simp [covarianceOf, meanXOf, meanYOf, Pen.totals]
  · have hc : correlationPre s.totals =
        RVal.num
          (covarianceOf s.totals /
            (stddevXOf s.totals * stddevYOf s.totals)) := by
      rw [correlationPre, if_neg hsd]
    rw [update_correlation_eq s h, hc, snap_num_of_gt _ habs]

/-- C7 witness: at the unit totals with cross moment `1/2`, the stored
covariance is `1/2` and the stored correlation is `1/2`. -/
theorem covariance_correlation_formulas_witness :
    (mkPen (unitTotals (1 / 2))).area ≠ 0 ∧
    (update (mkPen (unitTotals (1 / 2)))).covariance = 1 / 2 ∧
    (update (mkPen (unitTotals (1 / 2)))).correlation
      = RVal.num ((1 : ℝ) / 2) := by
  have h := unitTotals_area_ne (1 / 2)
  have hf := covariance_correlation_formulas (mkPen (unitTotals (1 / 2))) h
  refine ⟨h, ?_, ?_⟩
  · rw [hf.1]
    norm_num [mkPen, unitTotals]
  · have hsd : stddevXOf (mkPen (unitTotals (1 / 2))).totals
        * stddevYOf (mkPen (unitTotals (1 / 2))).totals ≠ 0 := by
      rw [mkPen_totals, unitTotals_stddevX, unitTotals_stddevY]
      norm_num
    have habs : 1 / 1000 <
        |covarianceOf (mkPen (unitTotals (1 / 2))).totals /
          (stddevXOf (mkPen (unitTotals (1 / 2))).totals
            * stddevYOf (mkPen (unitTotals (1 / 2))).totals)| := by
      rw [mkPen_totals, unitTotals_covariance, unitTotals_stddevX,
        unitTotals_stddevY]
      rw [show ((1 : ℝ) / 2) / (1 * 1) = 1 / 2 by norm_num, abs_half]
      norm_num
    rw [hf.2 hsd habs, mkPen_totals, unitTotals_covariance,
      unitTotals_stddevX, unitTotals_stddevY]
    norm_num
